import Mathlib

/-!
Verification of `scripts/claude_usage_stats.py`.

The script is a sequential reporting tool: it shells out to an external
`claude` CLI, parses JSON answers, falls back to client-side log
aggregation, and prints a usage report.  This file gives a shallow
embedding of its data model and operations:

* external process invocation (`subprocess.run` with `check=True`) is a
  function of the process outcome, with Python exceptions made explicit
  through `Except`;
* the stats fetchers are functions of an explicit environment recording
  what each external call returned;
* Python `datetime` values are embedded as a seven-field structure with
  lexicographic order and proleptic-Gregorian ordinal arithmetic,
  mirroring CPython's implementation;
* `int / int` and `float` arithmetic in `calculate_cost` is modelled
  twice: once over exact rationals, and once over an exact model of
  IEEE-754 binary64 round-to-nearest-even (as rational values), which is
  what CPython floats compute.
-/

namespace ClaudeUsage

/-! ### Pricing constants (lines 26-27 of the source) -/

/-- `COST_PER_1K_INPUT_TOKENS = 0.03`, as the exact rational the literal denotes. -/
def COST_PER_1K_INPUT_TOKENS : ℚ := 3 / 100

/-- `COST_PER_1K_OUTPUT_TOKENS = 0.15`, as the exact rational the literal denotes. -/
def COST_PER_1K_OUTPUT_TOKENS : ℚ := 15 / 100

/-- Log-fetch limits (lines 30-33 of the source). -/
def DAILY_LOG_LIMIT : ℕ := 100

def WEEKLY_LOG_LIMIT : ℕ := 500

def MONTHLY_LOG_LIMIT : ℕ := 1000

def SESSION_LOG_LIMIT : ℕ := 50

/-! ### `calculate_cost` (lines 143-147), over exact arithmetic

`calculate_cost` does `(input_tokens / 1000) * COST_PER_1K_INPUT_TOKENS +
(output_tokens / 1000) * COST_PER_1K_OUTPUT_TOKENS` with Python true
division.  Here the arithmetic is exact rational arithmetic; the
floating-point version is modelled separately below. -/

/-- `calculate_cost(input_tokens, output_tokens)` with exact arithmetic. -/
def calculate_cost (input_tokens output_tokens : ℤ) : ℚ :=
  let input_cost : ℚ := ((input_tokens : ℚ) / 1000) * COST_PER_1K_INPUT_TOKENS
  let output_cost : ℚ := ((output_tokens : ℚ) / 1000) * COST_PER_1K_OUTPUT_TOKENS
  input_cost + output_cost

/-! ### `run_command` (lines 36-47)

`subprocess.run(command, capture_output=True, text=True, check=True)`
either completes the child process (raising `CalledProcessError` when the
exit status is non-zero, which the `except` clause catches), or raises an
`OSError`-family exception such as `FileNotFoundError` when the executable
cannot be launched at all; that exception is *not* named in the `except`
clause.  The process outcome is the function's explicit input. -/

/-- Outcome of attempting to launch and wait for the external process. -/
inductive ProcOutcome where
  /-- The process was launched and terminated with this stdout, stderr and
      exit status. -/
  | completed (stdout : String) (stderr : String) (returncode : ℕ)
  /-- The launch itself failed (e.g. `FileNotFoundError`: executable absent,
      `PermissionError`: not executable). -/
  | launchError (msg : String)
  deriving DecidableEq, Repr

/-- A Python exception escaping `run_command`. -/
inductive PyExn where
  /-- An `OSError`-family exception from `subprocess.run` (not caught by
      the `except subprocess.CalledProcessError` clause). -/
  | osError (msg : String)
  deriving DecidableEq, Repr

/-- `run_command(command)`: returns `(stdout, True)` on exit status 0,
`("Error: " + stderr, False)` when `CalledProcessError` is caught, and
propagates the exception when the launch itself fails. -/
def run_command (outcome : ProcOutcome) : Except PyExn (String × Bool) :=
  match outcome with
  | .completed stdout stderr returncode =>
      if returncode = 0 then Except.ok (stdout, true)
      else Except.ok (("Error: ") ++ stderr, false)
  | .launchError msg => Except.error (.osError msg)

/-! ### Config redaction in `main` (lines 354-358)

The configuration is a JSON object, embedded as an association list of
string keys and string-rendered values.  `main` does
`if "api_key" in config: config["api_key"] = "********"` before printing;
on a Python dict that rewrites the value stored at the (unique) key
`"api_key"` and leaves every other entry alone. -/

/-- The redaction step of `main`: mask the value at key `"api_key"` if present. -/
def redact_config (config : List (String × String)) : List (String × String) :=
  if config.any (fun kv => kv.1 = ("api_key")) then
    config.map (fun kv => if kv.1 = ("api_key") then (kv.1, ("********")) else kv)
  else config

/-! ### Python `datetime`

Naive `datetime.datetime` values, embedded as their seven components.
CPython compares naive datetimes lexicographically on
`(year, month, day, hour, minute, second, microsecond)`, does calendar
arithmetic through the proleptic-Gregorian ordinal (`toordinal` /
`fromordinal`), and formats/parses ISO-8601 strings. -/

structure DateTime where
  year : ℕ
  month : ℕ
  day : ℕ
  hour : ℕ
  minute : ℕ
  second : ℕ
  microsecond : ℕ
  deriving DecidableEq, Repr

namespace DateTime

/-- One step of lexicographic comparison: decide on this component pair if it
is decisive, otherwise defer to the comparison of the remaining components. -/
def lexStep (x y : ℕ) (rest : Bool) : Bool :=
  if x ≠ y then decide (x < y) else rest

/-- Strict comparison `a < b`, CPython's lexicographic tuple comparison on
`(year, month, day, hour, minute, second, microsecond)`. -/
def ltb (a b : DateTime) : Bool :=
  lexStep a.year b.year (lexStep a.month b.month (lexStep a.day b.day
    (lexStep a.hour b.hour (lexStep a.minute b.minute (lexStep a.second b.second
      (decide (a.microsecond < b.microsecond)))))))

/-- Non-strict comparison `a <= b`. -/
def leb (a b : DateTime) : Bool :=
  lexStep a.year b.year (lexStep a.month b.month (lexStep a.day b.day
    (lexStep a.hour b.hour (lexStep a.minute b.minute (lexStep a.second b.second
      (decide (a.microsecond ≤ b.microsecond)))))))

end DateTime

/-! Calendar arithmetic, transcribed from CPython's `datetime` module. -/

def isLeapYear (y : ℕ) : Bool := y % 4 = 0 && (y % 100 ≠ 0 || y % 400 = 0)

def daysInMonth (y m : ℕ) : ℕ :=
  if m = 2 then (if isLeapYear y then 29 else 28)
  else if m = 4 ∨ m = 6 ∨ m = 9 ∨ m = 11 then 30
  else 31

/-- Number of days in year `y` strictly before the first of month `m`. -/
def daysBeforeMonth (y m : ℕ) : ℕ :=
  ((List.range (m - 1)).map (fun i => daysInMonth y (i + 1))).sum

/-- Number of days before January 1 of year `y` in the proleptic Gregorian
calendar (CPython's `_days_before_year`). -/
def daysBeforeYear (y : ℕ) : ℕ :=
  (y - 1) * 365 + (y - 1) / 4 - (y - 1) / 100 + (y - 1) / 400

/-- `datetime.toordinal()` restricted to the date components: day number with
0001-01-01 as day 1. -/
def DateTime.toordinal (t : DateTime) : ℕ :=
  daysBeforeYear t.year + daysBeforeMonth t.year t.month + t.day

/-- `datetime.fromordinal` (CPython's `_ord2ymd`): year, month, day from the
proleptic-Gregorian ordinal. -/
def ymdOfOrdinal (ordinal : ℕ) : ℕ × ℕ × ℕ :=
  let n := ordinal - 1
  let n400 := n / 146097
  let r400 := n % 146097
  let n100 := r400 / 36524
  let r100 := r400 % 36524
  let n4 := r100 / 1461
  let r4 := r100 % 1461
  let n1 := r4 / 365
  let r1 := r4 % 365
  let year := n400 * 400 + n100 * 100 + n4 * 4 + n1 + 1
  if n1 = 4 ∨ n100 = 4 then (year - 1, 12, 31)
  else
    let month := (List.range 12).foldl
      (fun acc i => if daysBeforeMonth year (i + 1) ≤ r1 then i + 1 else acc) 1
    (year, month, r1 - daysBeforeMonth year month + 1)

def usPerDay : ℕ := 86400000000

def usPerHour : ℕ := 3600000000

/-- Microseconds since midnight. -/
def DateTime.usOfDay (t : DateTime) : ℕ :=
  ((t.hour * 60 + t.minute) * 60 + t.second) * 1000000 + t.microsecond

/-- Microseconds since the day before 0001-01-01, the linear scale on which
CPython performs `datetime ± timedelta`. -/
def DateTime.toUs (t : DateTime) : ℤ :=
  (t.toordinal : ℤ) * usPerDay + t.usOfDay

def DateTime.ofUs (u : ℤ) : DateTime :=
  let d : ℕ := (u.ediv usPerDay).toNat
  let r : ℕ := (u.emod usPerDay).toNat
  let ymd := ymdOfOrdinal d
  let sec := r / 1000000
  { year := ymd.1, month := ymd.2.1, day := ymd.2.2,
    hour := sec / 3600, minute := sec / 60 % 60, second := sec % 60,
    microsecond := r % 1000000 }

/-- `t - timedelta(microseconds=us)` (negative `us` models addition). -/
def DateTime.subUs (t : DateTime) (us : ℤ) : DateTime := DateTime.ofUs (t.toUs - us)

/-- `datetime.weekday()`: Monday is 0. -/
def DateTime.weekday (t : DateTime) : ℕ := (t.toordinal + 6) % 7

/-- `now.replace(hour=0, minute=0, second=0, microsecond=0)`. -/
def DateTime.replaceMidnight (t : DateTime) : DateTime :=
  { t with hour := 0, minute := 0, second := 0, microsecond := 0 }

/-- `now.replace(day=1, hour=0, minute=0, second=0, microsecond=0)`. -/
def DateTime.replaceDay1Midnight (t : DateTime) : DateTime :=
  { t with day := 1, hour := 0, minute := 0, second := 0, microsecond := 0 }

/-! ISO-8601 formatting and parsing (`datetime.isoformat` /
`datetime.fromisoformat` on naive datetimes). -/

def padDigits (width n : ℕ) : List Char :=
  let ds := Nat.toDigits 10 n
  List.replicate (width - ds.length) ('0') ++ ds

/-- `datetime.isoformat()`: `YYYY-MM-DDTHH:MM:SS[.ffffff]`, the fractional
part omitted when the microsecond field is zero. -/
def DateTime.isoformat (t : DateTime) : String :=
  String.mk (padDigits 4 t.year ++ ['-'] ++ padDigits 2 t.month ++ ['-'] ++
    padDigits 2 t.day ++ ['T'] ++ padDigits 2 t.hour ++ [':'] ++
    padDigits 2 t.minute ++ [':'] ++ padDigits 2 t.second ++
    (if t.microsecond = 0 then [] else ['.'] ++ padDigits 6 t.microsecond))

def digitVal (c : Char) : Option ℕ :=
  if c.isDigit then some (c.toNat - 48) else none

def num2 (a b : Char) : Option ℕ := do
  pure ((← digitVal a) * 10 + (← digitVal b))

def num4 (a b c d : Char) : Option ℕ := do
  pure (((← digitVal a) * 10 + (← digitVal b)) * 100 + ((← digitVal c) * 10 + (← digitVal d)))

/-- Fractional-second part: exactly 3 or 6 digits, scaled to microseconds. -/
def parseFrac : List Char → Option ℕ
  | [a, b, c] => do pure (((← digitVal a) * 10 + (← digitVal b)) * 10 + (← digitVal c)) >>= (fun v => pure (v * 1000))
  | [a, b, c, d, e, f] => do
      pure ((((← num2 a b) * 10 + (← digitVal c)) * 10 + (← digitVal d)) * 100 + ((← digitVal e) * 10 + (← digitVal f)))
  | _ => none

def mkTimeFields (hh mm ss us : ℕ) : Option (ℕ × ℕ × ℕ × ℕ) :=
  if hh ≤ 23 ∧ mm ≤ 59 ∧ ss ≤ 59 ∧ us ≤ 999999 then some (hh, mm, ss, us) else none

/-- The time part of `fromisoformat`: `HH`, `HH:MM`, `HH:MM:SS`,
`HH:MM:SS.fff` or `HH:MM:SS.ffffff`, range-checked. -/
def parseTimeChars : List Char → Option (ℕ × ℕ × ℕ × ℕ)
  | [a, b] => do mkTimeFields (← num2 a b) 0 0 0
  | [a, b, c, d, e] =>
      if c = ':' then do mkTimeFields (← num2 a b) (← num2 d e) 0 0 else none
  | [a, b, c, d, e, f, g, k] =>
      if c = ':' ∧ f = ':' then do
        mkTimeFields (← num2 a b) (← num2 d e) (← num2 g k) 0
      else none
  | a :: b :: c :: d :: e :: f :: g :: k :: p :: fracChars =>
      if c = ':' ∧ f = ':' ∧ p = '.' then do
        mkTimeFields (← num2 a b) (← num2 d e) (← num2 g k) (← parseFrac fracChars)
      else none
  | _ => none

/-- `datetime.fromisoformat` on a naive timestamp `YYYY-MM-DD[*HH:MM...]`
(any single character as date/time separator); `none` models the
`ValueError` raised on malformed input. -/
def fromisoformatChars : List Char → Option DateTime
  | y1 :: y2 :: y3 :: y4 :: s1 :: mo1 :: mo2 :: s2 :: d1 :: d2 :: rest =>
      if s1 = '-' ∧ s2 = '-' then do
        let y ← num4 y1 y2 y3 y4
        let mo ← num2 mo1 mo2
        let d ← num2 d1 d2
        if 1 ≤ y ∧ 1 ≤ mo ∧ mo ≤ 12 ∧ 1 ≤ d ∧ d ≤ daysInMonth y mo then
          match rest with
          | [] => some ⟨y, mo, d, 0, 0, 0, 0⟩
          | _ :: timeChars => do
              let tp ← parseTimeChars timeChars
              some ⟨y, mo, d, tp.1, tp.2.1, tp.2.2.1, tp.2.2.2⟩
        else none
      else none
  | _ => none

def fromisoformat (s : String) : Option DateTime := fromisoformatChars s.toList

/-- `s.replace("Z", "")`: every occurrence of the character `Z` is removed. -/
def replaceZ (s : String) : String := String.mk (s.toList.filter (fun c => c != 'Z'))

/-- `datetime.fromisoformat(timestamp.replace("Z", ""))`, the parse the script
applies to each log-entry timestamp. -/
def parseEntryTime (s : String) : Option DateTime := fromisoformat (replaceZ s)

/-! ### External calls and parsed JSON payloads

Each external invocation in the fetchers is `run_command` followed by
`json.loads`.  On runs where `run_command` itself returns (no launch
error, see `run_command` above for that case), the pair of outcomes is:
the command failed (`success == False`), or its output was not valid JSON
(`json.JSONDecodeError`), or a parsed payload.  The fetchers are functions
of an environment recording these outcomes for each call they make. -/

inductive CallResult (α : Type) where
  /-- `run_command` returned a false success flag. -/
  | execFailure
  /-- `json.loads` raised on the command's output. -/
  | parseFailure
  /-- The parsed JSON payload. -/
  | parsed (val : α)
  deriving DecidableEq, Repr

/-- The call did not produce a usable payload. -/
def CallResult.failed {α : Type} : CallResult α → Bool
  | .parsed _ => false
  | _ => true

/-- The `"tokens"` object of a log entry; `prompt` / `completion` keys may be
absent (`entry.get("tokens", {}).get("prompt", 0)` defaults them to 0). -/
structure TokenCounts where
  prompt : Option ℤ
  completion : Option ℤ
  deriving DecidableEq, Repr

/-- One parsed log entry: `entry.get("timestamp")` and the `"tokens"` object
when the key is present. -/
structure LogEntry where
  timestamp : Option String
  tokens : Option TokenCounts
  deriving DecidableEq, Repr

/-- A parsed stats JSON object, restricted to the keys the script observes.
Keys absent from the external JSON are `none`. -/
structure ExtStats where
  input_tokens : Option ℤ
  output_tokens : Option ℤ
  total_tokens : Option ℤ
  session_start : Option String
  deriving DecidableEq, Repr

/-! ### `get_current_session_stats` (lines 77-140) -/

/-- Outcomes of the two calls `get_current_session_stats` can make:
`claude stats --format json`, then `claude logs --format json --limit N`
(the response may depend on the requested limit `N`). -/
structure SessionEnv where
  statsCall : CallResult ExtStats
  logsCall : ℕ → CallResult (List LogEntry)

/-- Running token totals and first/last parsed timestamps of the session
log-fallback loop (lines 99-119). -/
structure SessionAcc where
  input_tokens : ℤ
  output_tokens : ℤ
  first_timestamp : Option DateTime
  last_timestamp : Option DateTime
  deriving DecidableEq, Repr

/-- One iteration of the session log-fallback loop (lines 104-119). -/
def sessionStep (acc : SessionAcc) (entry : LogEntry) : SessionAcc :=
  let acc :=
    match entry.tokens with
    | some tc =>
        { acc with input_tokens := acc.input_tokens + tc.prompt.getD 0,
                   output_tokens := acc.output_tokens + tc.completion.getD 0 }
    | none => acc
  match entry.timestamp with
  | none => acc
  | some ts =>
      match parseEntryTime ts with
      | none => acc
      | some t =>
          let first :=
            match acc.first_timestamp with
            | none => some t
            | some ft => if DateTime.ltb t ft then some t else some ft
          let last :=
            match acc.last_timestamp with
            | none => some t
            | some lt0 => if DateTime.ltb lt0 t then some t else some lt0
          { acc with first_timestamp := first, last_timestamp := last }

/-- `get_current_session_stats()`: structured stats query; on failure the
session-log fallback; on total failure a zeroed object whose
`session_start` is one hour before `now`. -/
def get_current_session_stats (env : SessionEnv) (now : DateTime) : ExtStats :=
  match env.statsCall with
  | .parsed stats =>
      let default_start := (now.subUs usPerHour).isoformat
      { stats with session_start := some (stats.session_start.getD default_start) }
  | _ =>
      match env.logsCall SESSION_LOG_LIMIT with
      | .parsed logs =>
          let acc := logs.foldl sessionStep ⟨0, 0, none, none⟩
          let session_start :=
            match acc.first_timestamp with
            | some ft => ft.isoformat
            | none => now.isoformat
          { input_tokens := some acc.input_tokens,
            output_tokens := some acc.output_tokens,
            total_tokens := some (acc.input_tokens + acc.output_tokens),
            session_start := some session_start }
      | _ =>
          { input_tokens := some 0, output_tokens := some 0, total_tokens := some 0,
            session_start := some ((now.subUs usPerHour).isoformat) }

/-! ### `get_time_period_stats` (lines 155-274) -/

/-- Outcomes of the three calls `get_time_period_stats` can make:
`claude stats --period P`, `claude stats --from A --to B`, and
`claude logs --limit N` (response may depend on the requested limit). -/
structure PeriodEnv where
  statsPeriodCall : CallResult ExtStats
  statsRangeCall : CallResult ExtStats
  logsCall : ℕ → CallResult (List LogEntry)

/-- The returned period stats mapping. -/
structure PeriodStats where
  period : String
  input_tokens : Option ℤ
  output_tokens : Option ℤ
  total_tokens : Option ℤ
  cost : Option ℚ
  start_time : Option String
  end_time : Option String
  deriving DecidableEq, Repr

/-- The shared mutation block of the two structured-stats success paths
(lines 199-204 and 214-219): stamp period and window, derive
`total_tokens` and `cost` from the (defaulted) token keys, keep the token
keys as the external JSON had them. -/
def fillDerivedFields (stats : ExtStats) (period : String)
    (start_time end_time : DateTime) : PeriodStats :=
  { period := period,
    input_tokens := stats.input_tokens,
    output_tokens := stats.output_tokens,
    total_tokens := some (stats.input_tokens.getD 0 + stats.output_tokens.getD 0),
    cost := some (calculate_cost (stats.input_tokens.getD 0) (stats.output_tokens.getD 0)),
    start_time := some start_time.isoformat,
    end_time := some end_time.isoformat }

/-- One iteration of the period log-fallback loop (lines 243-259): skip
entries without a timestamp, skip entries whose timestamp does not parse,
skip entries outside `[start_time, end_time]`, and add the token counts of
the rest. -/
def periodStep (start_time end_time : DateTime) (acc : ℤ × ℤ) (entry : LogEntry) : ℤ × ℤ :=
  match entry.timestamp with
  | none => acc
  | some ts =>
      match parseEntryTime ts with
      | none => acc
      | some t =>
          if DateTime.ltb t start_time || DateTime.ltb end_time t then acc
          else
            match entry.tokens with
            | some tc => (acc.1 + tc.prompt.getD 0, acc.2 + tc.completion.getD 0)
            | none => acc

/-- The period log-fallback aggregation: `(input_tokens, output_tokens)`. -/
def periodAggregate (logs : List LogEntry) (start_time end_time : DateTime) : ℤ × ℤ :=
  logs.foldl (periodStep start_time end_time) (0, 0)

/-- `get_time_period_stats(period, start_time, end_time)`, a function of the
recorded outcomes of its external calls and of `datetime.now()`. -/
def get_time_period_stats (env : PeriodEnv) (period : String)
    (start_time? end_time? : Option DateTime) (now : DateTime) : PeriodStats :=
  let end_time := end_time?.getD now
  let start_time := start_time?.getD
    (if period = ("daily") then now.replaceMidnight
     else if period = ("weekly") then (now.subUs (now.weekday * usPerDay)).replaceMidnight
     else if period = ("monthly") then now.replaceDay1Midnight
     else now.subUs usPerDay)
  let direct : Option PeriodStats :=
    if period = ("daily") ∨ period = ("weekly") ∨ period = ("monthly") then
      match env.statsPeriodCall with
      | .parsed stats => some (fillDerivedFields stats period start_time end_time)
      | _ => none
    else none
  match direct with
  | some r => r
  | none =>
      match env.statsRangeCall with
      | .parsed stats => fillDerivedFields stats period start_time end_time
      | _ =>
          let limit :=
            if period = ("monthly") then MONTHLY_LOG_LIMIT
            else if period = ("weekly") then WEEKLY_LOG_LIMIT
            else if period = ("daily") then DAILY_LOG_LIMIT
            else SESSION_LOG_LIMIT
          let counts :=
            match env.logsCall limit with
            | .parsed logs => periodAggregate logs start_time end_time
            | _ => (0, 0)
          { period := period,
            input_tokens := some counts.1,
            output_tokens := some counts.2,
            total_tokens := some (counts.1 + counts.2),
            cost := some (calculate_cost counts.1 counts.2),
            start_time := some start_time.isoformat,
            end_time := some end_time.isoformat }

/-! ### Period selection in `main` (lines 340-349) -/

/-- Environments of the (up to four) `get_time_period_stats` invocations
`main` can make. -/
structure MainEnv where
  dailyEnv : PeriodEnv
  weeklyEnv : PeriodEnv
  monthlyEnv : PeriodEnv
  customEnv : PeriodEnv

/-- The label `f"last N days"` built in `main`. -/
def customPeriodLabel (days : ℤ) : String :=
  ("last ") ++ toString days ++ (" days")

/-- The `else` branch of lines 340-349: three independent standard windows. -/
def standardPeriodStats (env : MainEnv) (now : DateTime) :
    PeriodStats × PeriodStats × PeriodStats :=
  (get_time_period_stats env.dailyEnv ("daily") none none now,
   get_time_period_stats env.weeklyEnv ("weekly") none none now,
   get_time_period_stats env.monthlyEnv ("monthly") none none now)

/-- Lines 340-349 of `main`: the `(daily_stats, weekly_stats, monthly_stats)`
triple passed to `print_usage_report`.  `days = none` models the flag being
absent (`args.days is None`); `if args.days:` is Python truthiness, so
`--days 0` also takes the `else` branch. -/
def mainPeriodStats (env : MainEnv) (days : Option ℤ) (now : DateTime) :
    PeriodStats × PeriodStats × PeriodStats :=
  match days with
  | some d =>
      if d ≠ 0 then
        let start_time := now.subUs (d * (usPerDay : ℤ))
        let period_stats :=
          get_time_period_stats env.customEnv (customPeriodLabel d)
            (some start_time) (some now) now
        (period_stats, period_stats, period_stats)
      else standardPeriodStats env now
  | none => standardPeriodStats env now

/-! ### CPython floats: exact IEEE-754 binary64 model

`calculate_cost` runs on CPython floats: `int / int` is true division with
a correctly rounded binary64 result, and `float` multiplication and
addition are correctly rounded.  Here each binary64 value is represented
by the exact rational it denotes, and each operation is the exact rational
operation followed by round-to-nearest, ties-to-even, at 53 significant
bits.  Overflow and subnormal underflow are outside the modelled range
(all values in the claims are mid-range normal numbers).

Mathlib's `ℚ` operations do not reduce inside the kernel, so the exact
rationals of this model are carried by an explicit fraction type `Frac`
(integer numerator, positive denominator by construction, not necessarily
reduced) whose arithmetic the kernel can evaluate; `Frac.toRat` interprets
a fraction as the rational number it denotes. -/

structure Frac where
  num : ℤ
  den : ℤ
  deriving DecidableEq, Repr

/-- The rational number a fraction denotes. -/
def Frac.toRat (a : Frac) : ℚ := (a.num : ℚ) / (a.den : ℚ)

def Frac.ofInt (n : ℤ) : Frac := ⟨n, 1⟩

def Frac.neg (a : Frac) : Frac := ⟨-a.num, a.den⟩

def Frac.add (a b : Frac) : Frac := ⟨a.num * b.den + b.num * a.den, a.den * b.den⟩

def Frac.sub (a b : Frac) : Frac := a.add b.neg

def Frac.mul (a b : Frac) : Frac := ⟨a.num * b.num, a.den * b.den⟩

/-- Restore a positive denominator after division. -/
def Frac.fixSign (a : Frac) : Frac := if a.den < 0 then ⟨-a.num, -a.den⟩ else a

def Frac.div (a b : Frac) : Frac := Frac.fixSign ⟨a.num * b.den, a.den * b.num⟩

/-- Value equality (cross multiplication), valid when both denominators are
non-zero. -/
def Frac.beq (a b : Frac) : Bool := decide (a.num * b.den = b.num * a.den)

/-- `a < b`, valid when both denominators are positive. -/
def Frac.ltb (a b : Frac) : Bool := decide (a.num * b.den < b.num * a.den)

/-- `a ≤ b`, valid when both denominators are positive. -/
def Frac.leb (a b : Frac) : Bool := decide (a.num * b.den ≤ b.num * a.den)

/-- `⌊a⌋`, valid when the denominator is positive. -/
def Frac.floor (a : Frac) : ℤ := Int.fdiv a.num a.den

/-- `⌊log2 n⌋` for `n ≥ 1` (0 for `n ≤ 1`), by fuel recursion so that the
kernel can evaluate it; the fuel covers all naturals below `2 ^ 1200`,
far beyond the binary64 range. -/
def natFloorLog2 : ℕ → ℕ → ℕ
  | 0, _ => 0
  | fuel + 1, n => if n ≤ 1 then 0 else natFloorLog2 fuel (n / 2) + 1

def floorLog2Fuel : ℕ := 1200

/-- `2 ^ e` as an exact fraction, for `e : ℤ`. -/
def pow2 (e : ℤ) : Frac :=
  if 0 ≤ e then ⟨2 ^ e.toNat, 1⟩ else ⟨1, 2 ^ (-e).toNat⟩

/-- `⌊log2 q⌋` for a positive fraction `q`: the numerator and denominator
bit lengths give two candidates, and one comparison settles which. -/
def fracFloorLog2 (q : Frac) : ℤ :=
  let a : ℤ := natFloorLog2 floorLog2Fuel q.num.natAbs
  let b : ℤ := natFloorLog2 floorLog2Fuel q.den.natAbs
  let c : ℤ := a - b
  if (pow2 c).leb q then c else c - 1

/-- Round a positive fraction to the nearest binary64 value (ties to even),
as the exact fraction that value denotes. -/
def round64Pos (q : Frac) : Frac :=
  let e : ℤ := fracFloorLog2 q - 52
  let scaled : Frac := q.div (pow2 e)
  let m : ℤ := scaled.floor
  let frac : Frac := scaled.sub (Frac.ofInt m)
  let mr : ℤ :=
    if frac.ltb ⟨1, 2⟩ then m
    else if Frac.ltb ⟨1, 2⟩ frac then m + 1
    else if m % 2 = 0 then m else m + 1
  (Frac.ofInt mr).mul (pow2 e)

/-- Round an exact fraction to the nearest binary64 value. -/
def round64 (q : Frac) : Frac :=
  if q.num = 0 then ⟨0, 1⟩
  else if q.num < 0 then (round64Pos q.neg).neg
  else round64Pos q

/-- Correctly rounded binary64 division (CPython `int / int` and `float / float`). -/
def fdiv64 (a b : Frac) : Frac := round64 (a.div b)

/-- Correctly rounded binary64 multiplication. -/
def fmul64 (a b : Frac) : Frac := round64 (a.mul b)

/-- Correctly rounded binary64 addition. -/
def fadd64 (a b : Frac) : Frac := round64 (a.add b)

/-- The binary64 value of the literal `0.03` (`COST_PER_1K_INPUT_TOKENS`). -/
def FLOAT_COST_PER_1K_INPUT : Frac := round64 ⟨3, 100⟩

/-- The binary64 value of the literal `0.15` (`COST_PER_1K_OUTPUT_TOKENS`). -/
def FLOAT_COST_PER_1K_OUTPUT : Frac := round64 ⟨15, 100⟩

/-- `calculate_cost` as CPython executes it: every intermediate value is a
binary64 float. -/
def calculate_cost_float (input_tokens output_tokens : ℤ) : Frac :=
  let input_cost := fmul64 (fdiv64 (Frac.ofInt input_tokens) (Frac.ofInt 1000)) FLOAT_COST_PER_1K_INPUT
  let output_cost := fmul64 (fdiv64 (Frac.ofInt output_tokens) (Frac.ofInt 1000)) FLOAT_COST_PER_1K_OUTPUT
  fadd64 input_cost output_cost

/-! ### Derived predicates and concrete fixtures used in the statements -/

/-- An entry the period window filter keeps: its timestamp is present,
parses, and lies in `[start_time, end_time]` inclusive. -/
def inWindowEntry (start_time end_time : DateTime) (entry : LogEntry) : Bool :=
  match entry.timestamp with
  | none => false
  | some ts =>
      match parseEntryTime ts with
      | none => false
      | some t => DateTime.leb start_time t && DateTime.leb t end_time

/-- Unconditional token accumulation of one entry (the body of the period
loop once an entry has passed the window filter). -/
def addEntryTokens (acc : ℤ × ℤ) (entry : LogEntry) : ℤ × ℤ :=
  match entry.tokens with
  | some tc => (acc.1 + tc.prompt.getD 0, acc.2 + tc.completion.getD 0)
  | none => acc

/-- A period environment in which every external call fails. -/
def failingPeriodEnv : PeriodEnv :=
  { statsPeriodCall := .execFailure, statsRangeCall := .execFailure,
    logsCall := fun _ => .execFailure }

/-- A session environment in which every external call fails. -/
def failingSessionEnv : SessionEnv :=
  { statsCall := .execFailure, logsCall := fun _ => .execFailure }

/-- A main environment in which every external call fails. -/
def failingMainEnv : MainEnv :=
  { dailyEnv := failingPeriodEnv, weeklyEnv := failingPeriodEnv,
    monthlyEnv := failingPeriodEnv, customEnv := failingPeriodEnv }

/-- A fixed `datetime.now()` used by the concrete instantiations. -/
def sampleNow : DateTime := ⟨2025, 6, 15, 12, 30, 0, 0⟩

/-- A structured-stats JSON answer whose `total_tokens` key disagrees with
the sum of its token keys. -/
def inconsistentExtStats : ExtStats :=
  { input_tokens := some 1, output_tokens := some 2, total_tokens := some 100,
    session_start := some ("2025-06-15T11:00:00") }

/-- A session environment whose structured stats call succeeds with
`inconsistentExtStats`. -/
def inconsistentSessionEnv : SessionEnv :=
  { statsCall := .parsed inconsistentExtStats, logsCall := fun _ => .execFailure }

/-- A log entry with token counts and a well-formed timestamp. -/
def sampleGoodEntry : LogEntry :=
  { timestamp := some ("2025-06-15T10:00:00Z"),
    tokens := some { prompt := some 3, completion := some 4 } }

/-- A log entry with token counts but a malformed timestamp. -/
def sampleBadEntry : LogEntry :=
  { timestamp := some ("not a timestamp"),
    tokens := some { prompt := some 7, completion := some 9 } }

end ClaudeUsage

/-!
## Theorems

Helper lemmas first, then one theorem per claim (with witnesses and
counterexamples where applicable).
-/

namespace ClaudeUsage

theorem DateTime.lexStep_not (x y : ℕ) (r s : Bool) (h : r = false ↔ s = true) :
    DateTime.lexStep x y r = false ↔ DateTime.lexStep y x s = true := by
  unfold DateTime.lexStep
  by_cases hxy : x = y
  · subst hxy; simp [h]
  · have hyx : y ≠ x := fun e => hxy e.symm
    simp only [ne_eq, hxy, hyx, not_false_eq_true, if_true, decide_eq_false_iff_not,
      decide_eq_true_eq]
    omega

/-- CPython's datetime comparison is a total order: `a < b` is false exactly
when `b <= a`. -/
theorem DateTime.not_ltb_iff_leb (a b : DateTime) :
    DateTime.ltb a b = false ↔ DateTime.leb b a = true := by
  unfold DateTime.ltb DateTime.leb
  refine DateTime.lexStep_not _ _ _ _ (DateTime.lexStep_not _ _ _ _ (DateTime.lexStep_not _ _ _ _
    (DateTime.lexStep_not _ _ _ _ (DateTime.lexStep_not _ _ _ _ (DateTime.lexStep_not _ _ _ _ ?_)))))
  simp only [decide_eq_false_iff_not, decide_eq_true_eq]
  omega

/-- One period-loop iteration adds the entry's tokens exactly when the entry
passes the inclusive window filter, and leaves the totals unchanged
otherwise. -/
theorem periodStep_eq (st et : DateTime) (acc : ℤ × ℤ) (e : LogEntry) :
    periodStep st et acc e = if inWindowEntry st et e then addEntryTokens acc e else acc := by
  rcases e with ⟨ts?, tok?⟩
  cases ts? with
  | none => rfl
  | some ts =>
      unfold periodStep inWindowEntry addEntryTokens
      simp only
      cases hp : parseEntryTime ts with
      | none => simp
      | some t =>
          have h1 := DateTime.not_ltb_iff_leb t st
          have h2 := DateTime.not_ltb_iff_leb et t
          cases hb1 : DateTime.ltb t st <;> cases hb2 : DateTime.ltb et t <;>
            cases tok? <;> simp_all

/-- Folding a step that acts only on entries satisfying `p` is folding the
action over the filtered list. -/
theorem foldl_step_filter {α β : Type} (p : α → Bool) (f step : β → α → β)
    (hstep : ∀ b a, step b a = if p a then f b a else b) :
    ∀ (l : List α) (b : β), l.foldl step b = (l.filter p).foldl f b := by
  intro l
  induction l with
  | nil => intro b; rfl
  | cons x xs ih =>
      intro b
      rw [List.foldl_cons, hstep, List.filter_cons]
      by_cases hx : p x = true <;> simp [hx, ih]

/-- Every return path of `get_time_period_stats` with an explicit window
stamps that window and the period label into the result. -/
theorem get_time_period_stats_window (env : PeriodEnv) (period : String)
    (a b now : DateTime) :
    (get_time_period_stats env period (some a) (some b) now).start_time = some a.isoformat ∧
    (get_time_period_stats env period (some a) (some b) now).end_time = some b.isoformat ∧
    (get_time_period_stats env period (some a) (some b) now).period = period := by
  rcases env with ⟨pc, rc, lc⟩
  cases pc <;> cases rc <;>
    simp only [get_time_period_stats, fillDerivedFields, Option.getD_some] <;>
    split_ifs <;> simp

/-- Every return path of `get_time_period_stats` produces a non-null
timestamp pair. -/
theorem get_time_period_stats_window_isSome (env : PeriodEnv) (period : String)
    (st? et? : Option DateTime) (now : DateTime) :
    (get_time_period_stats env period st? et? now).start_time.isSome = true ∧
    (get_time_period_stats env period st? et? now).end_time.isSome = true := by
  rcases env with ⟨pc, rc, lc⟩
  cases pc <;> cases rc <;>
    simp only [get_time_period_stats, fillDerivedFields] <;>
    split_ifs <;> simp

/-- Fractions with positive denominators that fail the cross-multiplication
test denote different rational numbers. -/
theorem Frac.toRat_ne_of_beq_false (a b : Frac) (ha : 0 < a.den) (hb : 0 < b.den)
    (h : Frac.beq a b = false) : Frac.toRat a ≠ Frac.toRat b := by
  unfold Frac.toRat
  simp only [Frac.beq, decide_eq_false_iff_not] at h
  intro he
  apply h
  rw [div_eq_div_iff (by exact_mod_cast ha.ne.symm) (by exact_mod_cast hb.ne.symm)] at he
  exact_mod_cast he

/-- On total failure of both its calls, the session fetcher returns the
zeroed stats object with `session_start` one hour before `now`. -/
theorem get_current_session_stats_total_failure (senv : SessionEnv) (now : DateTime)
    (h1 : senv.statsCall.failed = true)
    (h2 : (senv.logsCall SESSION_LOG_LIMIT).failed = true) :
    get_current_session_stats senv now =
      { input_tokens := some 0, output_tokens := some 0, total_tokens := some 0,
        session_start := some ((now.subUs usPerHour).isoformat) } := by
  rcases senv with ⟨sc, lc⟩
  cases sc with
  | parsed v => exact absurd h1 (by simp [CallResult.failed])
  | execFailure =>
      cases hl : lc SESSION_LOG_LIMIT with
      | parsed v => exact absurd h2 (by simp [CallResult.failed, hl])
      | execFailure => simp [get_current_session_stats, hl]
      | parseFailure => simp [get_current_session_stats, hl]
  | parseFailure =>
      cases hl : lc SESSION_LOG_LIMIT with
      | parsed v => exact absurd h2 (by simp [CallResult.failed, hl])
      | execFailure => simp [get_current_session_stats, hl]
      | parseFailure => simp [get_current_session_stats, hl]

/-- On total failure of all its calls, the period fetcher returns zero token
counts (the window stamps are covered by
`get_time_period_stats_window_isSome`). -/
theorem get_time_period_stats_total_failure (penv : PeriodEnv) (period : String)
    (st? et? : Option DateTime) (now : DateTime)
    (h3 : penv.statsPeriodCall.failed = true)
    (h4 : penv.statsRangeCall.failed = true)
    (h5 : ∀ n, (penv.logsCall n).failed = true) :
    (get_time_period_stats penv period st? et? now).input_tokens = some 0 ∧
    (get_time_period_stats penv period st? et? now).output_tokens = some 0 ∧
    (get_time_period_stats penv period st? et? now).total_tokens = some 0 := by
  rcases penv with ⟨pc, rc, lc⟩
  have h5' : ∀ (n : ℕ) (logs : List LogEntry), lc n ≠ CallResult.parsed logs := by
    intro n logs hc
    have hbad := h5 n
    simp [CallResult.failed, hc] at hbad
  cases pc with
  | parsed v => exact absurd h3 (by simp [CallResult.failed])
  | execFailure =>
      cases rc with
      | parsed v => exact absurd h4 (by simp [CallResult.failed])
      | execFailure =>
          simp only [get_time_period_stats]
          split_ifs <;> split <;> try (rename_i heq; exact Option.noConfusion heq)
          all_goals
            split <;>
              first
              | (rename_i logs heq2; exact absurd heq2 (h5' _ logs))
              | simp
      | parseFailure =>
          simp only [get_time_period_stats]
          split_ifs <;> split <;> try (rename_i heq; exact Option.noConfusion heq)
          all_goals
            split <;>
              first
              | (rename_i logs heq2; exact absurd heq2 (h5' _ logs))
              | simp
  | parseFailure =>
      cases rc with
      | parsed v => exact absurd h4 (by simp [CallResult.failed])
      | execFailure =>
          simp only [get_time_period_stats]
          split_ifs <;> split <;> try (rename_i heq; exact Option.noConfusion heq)
          all_goals
            split <;>
              first
              | (rename_i logs heq2; exact absurd heq2 (h5' _ logs))
              | simp
      | parseFailure =>
          simp only [get_time_period_stats]
          split_ifs <;> split <;> try (rename_i heq; exact Option.noConfusion heq)
          all_goals
            split <;>
              first
              | (rename_i logs heq2; exact absurd heq2 (h5' _ logs))
              | simp

/-! ### Claim theorems -/

set_option maxRecDepth 100000

/-- C5: `calculate_cost(input_tokens, output_tokens)` equals
`(input_tokens/1000) * COST_PER_1K_INPUT_TOKENS +
(output_tokens/1000) * COST_PER_1K_OUTPUT_TOKENS`; it is a pure function
(deterministic, no side effects, no error path), and `calculate_cost(0, 0)`
is `0` — exactly, also in the floating-point model of the implementation. -/
theorem claim_C5_cost_formula :
    (∀ input_tokens output_tokens : ℤ,
      calculate_cost input_tokens output_tokens =
        ((input_tokens : ℚ) / 1000) * COST_PER_1K_INPUT_TOKENS +
          ((output_tokens : ℚ) / 1000) * COST_PER_1K_OUTPUT_TOKENS) ∧
    calculate_cost 0 0 = 0 ∧ (calculate_cost_float 0 0).toRat = 0 := by
  refine ⟨fun i o => rfl, ?_, ?_⟩
  · unfold calculate_cost
    norm_num
  · have h : calculate_cost_float 0 0 = ⟨0, 1⟩ := by decide
    rw [h]
    unfold Frac.toRat
    norm_num

/-- C6 fails on the code as run: with the IEEE-754 binary64 arithmetic the
implementation uses, `calculate_cost(0+0, 1+4)` is a different float value
than `calculate_cost(0, 1) + calculate_cost(0, 4)` (the values differ by one
unit in the last place), so additivity does not hold for the function as
implemented. -/
theorem claim_C6_counterexample :
    (calculate_cost_float (0 + 0) (1 + 4)).toRat ≠
      (fadd64 (calculate_cost_float 0 1) (calculate_cost_float 0 4)).toRat := by
  apply Frac.toRat_ne_of_beq_false <;> decide

/-- C6 amended: over the exact rational value of the cost formula the
function is additive, `calculate_cost(a+c, b+d) = calculate_cost(a,b) +
calculate_cost(c,d)`, and `calculate_cost(0,0) = 0`; additivity fails for
the floating-point evaluation the implementation performs. -/
theorem claim_C6_amended_exact_additive :
    calculate_cost 0 0 = 0 ∧
    ∀ a b c d : ℤ,
      calculate_cost (a + c) (b + d) = calculate_cost a b + calculate_cost c d := by
  constructor
  · unfold calculate_cost
    norm_num
  · intro a b c d
    unfold calculate_cost
    push_cast
    ring

/-- C2 fails on the code: when the external executable cannot be launched at
all (`FileNotFoundError`, an execution failure in the claim's sense), the
exception is not converted into a returned pair — `run_command` only
catches `subprocess.CalledProcessError`, so the `OSError` propagates past
the boundary. -/
theorem claim_C2_counterexample :
    run_command (ProcOutcome.launchError ("FileNotFoundError: claude")) =
      Except.error (PyExn.osError ("FileNotFoundError: claude")) := rfl

/-- C2 amended: for every invocation whose external process launches and
terminates, `run_command` returns a pair instead of raising: the success
flag is true exactly on exit status 0 (with the captured stdout as the
text), and on a non-zero exit status the text is the captured error string;
only a failure to launch the process escapes as an exception. -/
theorem claim_C2_completed_never_raises (stdout stderr : String) (returncode : ℕ) :
    ∃ res : String × Bool,
      run_command (ProcOutcome.completed stdout stderr returncode) = Except.ok res ∧
        (res.2 = true ↔ returncode = 0) ∧
        (returncode = 0 → res.1 = stdout) ∧
        (returncode ≠ 0 → res.1 = ("Error: ") ++ stderr) := by
  by_cases h : returncode = 0
  · exact ⟨(stdout, true), by simp [run_command, h]⟩
  · exact ⟨(("Error: ") ++ stderr, false), by simp [run_command, h]⟩

/-- Concrete instantiation of the amended C2 theorem at exit status 2. -/
theorem claim_C2_completed_never_raises_witness :
    ∃ res : String × Bool,
      run_command (ProcOutcome.completed ("out") ("boom") 2) = Except.ok res ∧
        (res.2 = true ↔ 2 = 0) ∧
        ((2 : ℕ) = 0 → res.1 = ("out")) ∧
        ((2 : ℕ) ≠ 0 → res.1 = ("Error: ") ++ ("boom")) :=
  claim_C2_completed_never_raises ("out") ("boom") 2

/-- C10: `if args.days:` is Python truthiness, so `--days 0` takes the same
branch as an absent flag — the three period stats come from the standard
daily/weekly/monthly window logic, not from a zero-length custom window. -/
theorem claim_C10_days_zero (env : MainEnv) (now : DateTime) :
    mainPeriodStats env (some 0) now = mainPeriodStats env none now ∧
    mainPeriodStats env (some 0) now = standardPeriodStats env now := by
  constructor <;> simp [mainPeriodStats]

/-- C7: with `--days N` for non-zero `N`, the daily, weekly and monthly
slots passed to the report are one and the same stats object, whose window
is exactly `now - N days .. now` and whose label is `last N days`. -/
theorem claim_C7_custom_window (env : MainEnv) (d : ℤ) (now : DateTime) (h : d ≠ 0) :
    (mainPeriodStats env (some d) now).1 = (mainPeriodStats env (some d) now).2.1 ∧
    (mainPeriodStats env (some d) now).1 = (mainPeriodStats env (some d) now).2.2 ∧
    (mainPeriodStats env (some d) now).1.start_time =
      some ((now.subUs (d * (usPerDay : ℤ))).isoformat) ∧
    (mainPeriodStats env (some d) now).1.end_time = some now.isoformat ∧
    (mainPeriodStats env (some d) now).1.period = customPeriodLabel d := by
  obtain ⟨hs, he, hp⟩ := get_time_period_stats_window env.customEnv (customPeriodLabel d)
    (now.subUs (d * (usPerDay : ℤ))) now now
  have key : mainPeriodStats env (some d) now =
      (get_time_period_stats env.customEnv (customPeriodLabel d)
         (some (now.subUs (d * (usPerDay : ℤ)))) (some now) now,
       get_time_period_stats env.customEnv (customPeriodLabel d)
         (some (now.subUs (d * (usPerDay : ℤ)))) (some now) now,
       get_time_period_stats env.customEnv (customPeriodLabel d)
         (some (now.subUs (d * (usPerDay : ℤ)))) (some now) now) := by
    simp [mainPeriodStats, h]
  rw [key]
  exact ⟨rfl, rfl, hs, he, hp⟩

/-- Concrete instantiation of C7 at `--days 7`. -/
theorem claim_C7_custom_window_witness :
    (7 : ℤ) ≠ 0 ∧
    ((mainPeriodStats failingMainEnv (some 7) sampleNow).1 =
        (mainPeriodStats failingMainEnv (some 7) sampleNow).2.1 ∧
      (mainPeriodStats failingMainEnv (some 7) sampleNow).1 =
        (mainPeriodStats failingMainEnv (some 7) sampleNow).2.2 ∧
      (mainPeriodStats failingMainEnv (some 7) sampleNow).1.start_time =
        some ((sampleNow.subUs (7 * (usPerDay : ℤ))).isoformat) ∧
      (mainPeriodStats failingMainEnv (some 7) sampleNow).1.end_time =
        some sampleNow.isoformat ∧
      (mainPeriodStats failingMainEnv (some 7) sampleNow).1.period =
        customPeriodLabel 7) :=
  ⟨by decide, claim_C7_custom_window failingMainEnv 7 sampleNow (by decide)⟩

/-- C9: before the verbose display, the value stored under the key
`api_key` is replaced by the mask `********`: the masked pair is in the
displayed config, every other entry is unchanged, and no unmasked
`api_key` value survives. -/
theorem claim_C9_api_key_masked (config : List (String × String)) (v : String)
    (h : ((("api_key") : String), v) ∈ config) :
    (((("api_key") : String), ("********")) ∈ redact_config config) ∧
    (∀ k w, (k, w) ∈ config → k ≠ ("api_key") → (k, w) ∈ redact_config config) ∧
    (∀ w, ((("api_key") : String), w) ∈ redact_config config → w = ("********")) := by
  have hany : config.any (fun kv => kv.1 = ("api_key")) = true :=
    List.any_eq_true.2 ⟨_, h, by simp⟩
  unfold redact_config
  rw [if_pos hany]
  refine ⟨?_, ?_, ?_⟩
  · exact List.mem_map.2 ⟨((("api_key") : String), v), h, by simp⟩
  · intro k w hkw hk
    exact List.mem_map.2 ⟨(k, w), hkw, by simp [hk]⟩
  · intro w hw
    rcases List.mem_map.1 hw with ⟨kv, hmem, heq⟩
    by_cases hk : kv.1 = ("api_key")
    · rw [if_pos hk] at heq
      exact (Prod.ext_iff.1 heq).2.symm
    · rw [if_neg hk] at heq
      exact absurd (by rw [heq] : kv.1 = ("api_key")) hk

/-- C4: the log-fallback aggregation of `get_time_period_stats` equals the
token sum over exactly those entries whose parsed timestamp `t` satisfies
`start_time <= t <= end_time`; an entry strictly before the start or
strictly after the end (or without a parseable timestamp) never
contributes. -/
theorem claim_C4_window_aggregation (logs : List LogEntry) (start_time end_time : DateTime) :
    periodAggregate logs start_time end_time =
      (logs.filter (inWindowEntry start_time end_time)).foldl addEntryTokens (0, 0) :=
  foldl_step_filter (inWindowEntry start_time end_time) addEntryTokens
    (periodStep start_time end_time) (periodStep_eq start_time end_time) logs (0, 0)

/-- C8: timestamp parsing removes every `Z` before `fromisoformat`, so a
trailing UTC marker is tolerated; an entry whose timestamp fails to parse
is skipped by the period aggregation while the remaining entries still
count, and the session first/last-timestamp tracking likewise skips it;
aggregation is total, so a malformed timestamp never aborts it. -/
theorem claim_C8_malformed_timestamp_skipped :
    (∀ s : String, parseEntryTime (s ++ ("Z")) = parseEntryTime s) ∧
    (∀ (pre post : List LogEntry) (e : LogEntry) (ts : String) (st et : DateTime),
      e.timestamp = some ts → parseEntryTime ts = none →
      periodAggregate (pre ++ e :: post) st et = periodAggregate (pre ++ post) st et) ∧
    (∀ (acc : SessionAcc) (e : LogEntry) (ts : String),
      e.timestamp = some ts → parseEntryTime ts = none →
      (sessionStep acc e).first_timestamp = acc.first_timestamp ∧
      (sessionStep acc e).last_timestamp = acc.last_timestamp) := by
  refine ⟨?_, ?_, ?_⟩
  · intro s
    unfold parseEntryTime replaceZ
    have hz : (s ++ ("Z")).toList = s.toList ++ [('Z')] := by
      simp [String.toList]
    rw [hz, List.filter_append]
    simp
  · intro pre post e ts st et hts hp
    unfold periodAggregate
    have hskip : ∀ acc, periodStep st et acc e = acc := by
      intro acc
      simp only [periodStep, hts, hp]
    rw [List.foldl_append, List.foldl_append, List.foldl_cons, hskip]
  · intro acc e ts hts hp
    rcases e with ⟨ts?, tok?⟩
    have hts' : ts? = some ts := hts
    subst hts'
    cases tok? <;> simp [sessionStep, hp]

/-- Concrete instantiation of C8: an entry with an unparseable timestamp is
dropped from the period aggregation, and the `Z` form of a timestamp
parses like the bare form. -/
theorem claim_C8_malformed_timestamp_skipped_witness :
    (parseEntryTime (("2025-06-15T10:00:00") ++ ("Z")) =
      parseEntryTime ("2025-06-15T10:00:00")) ∧
    sampleBadEntry.timestamp = some ("not a timestamp") ∧
    parseEntryTime ("not a timestamp") = none ∧
    periodAggregate (([sampleGoodEntry] : List LogEntry) ++ sampleBadEntry :: ([] : List LogEntry))
        sampleNow sampleNow =
      periodAggregate (([sampleGoodEntry] : List LogEntry) ++ ([] : List LogEntry))
        sampleNow sampleNow :=
  ⟨claim_C8_malformed_timestamp_skipped.1 ("2025-06-15T10:00:00"), rfl, by decide,
   claim_C8_malformed_timestamp_skipped.2.1 ([sampleGoodEntry]) ([]) sampleBadEntry
     ("not a timestamp") sampleNow sampleNow rfl (by decide)⟩

/-- C3: when the structured-stats call and the raw-log fallback both fail
(unsuccessful flag or unparseable JSON), the fetchers return zero-valued
stats with a non-null timestamp window: the session object's window starts
exactly one hour before `now` (its end is the report's clock), and the
period object carries both `start_time` and `end_time`. -/
theorem claim_C3_zeroed_stats_on_total_failure (senv : SessionEnv) (penv : PeriodEnv)
    (period : String) (st? et? : Option DateTime) (now : DateTime)
    (h1 : senv.statsCall.failed = true)
    (h2 : (senv.logsCall SESSION_LOG_LIMIT).failed = true)
    (h3 : penv.statsPeriodCall.failed = true)
    (h4 : penv.statsRangeCall.failed = true)
    (h5 : ∀ n, (penv.logsCall n).failed = true) :
    get_current_session_stats senv now =
      { input_tokens := some 0, output_tokens := some 0, total_tokens := some 0,
        session_start := some ((now.subUs usPerHour).isoformat) } ∧
    (get_time_period_stats penv period st? et? now).input_tokens = some 0 ∧
    (get_time_period_stats penv period st? et? now).output_tokens = some 0 ∧
    (get_time_period_stats penv period st? et? now).total_tokens = some 0 ∧
    (get_time_period_stats penv period st? et? now).start_time.isSome = true ∧
    (get_time_period_stats penv period st? et? now).end_time.isSome = true := by
  obtain ⟨hi, ho, ht⟩ := get_time_period_stats_total_failure penv period st? et? now h3 h4 h5
  obtain ⟨hss, hse⟩ := get_time_period_stats_window_isSome penv period st? et? now
  exact ⟨get_current_session_stats_total_failure senv now h1 h2, hi, ho, ht, hss, hse⟩

/-- Concrete instantiation of C3 with every external call failing. -/
theorem claim_C3_zeroed_stats_on_total_failure_witness :
    failingSessionEnv.statsCall.failed = true ∧
    (∀ n, (failingPeriodEnv.logsCall n).failed = true) ∧
    (get_current_session_stats failingSessionEnv sampleNow =
      { input_tokens := some 0, output_tokens := some 0, total_tokens := some 0,
        session_start := some ((sampleNow.subUs usPerHour).isoformat) } ∧
    (get_time_period_stats failingPeriodEnv ("daily") none none sampleNow).input_tokens = some 0 ∧
    (get_time_period_stats failingPeriodEnv ("daily") none none sampleNow).output_tokens = some 0 ∧
    (get_time_period_stats failingPeriodEnv ("daily") none none sampleNow).total_tokens = some 0 ∧
    (get_time_period_stats failingPeriodEnv ("daily") none none sampleNow).start_time.isSome = true ∧
    (get_time_period_stats failingPeriodEnv ("daily") none none sampleNow).end_time.isSome = true) :=
  ⟨rfl, fun _ => rfl,
   claim_C3_zeroed_stats_on_total_failure failingSessionEnv failingPeriodEnv ("daily")
     none none sampleNow rfl rfl rfl rfl (fun _ => rfl)⟩

/-- C1 fails on the code: on the path where the structured session-stats
query succeeds, `get_current_session_stats` returns the external JSON
object as-is (only `session_start` is defaulted), so a payload whose
`total_tokens` key disagrees with the sum of its token keys is passed
through unchanged: with `input_tokens = 1`, `output_tokens = 2`,
`total_tokens = 100`, the returned mapping violates the invariant. -/
theorem claim_C1_counterexample :
    (get_current_session_stats inconsistentSessionEnv sampleNow).total_tokens ≠
      some ((get_current_session_stats inconsistentSessionEnv sampleNow).input_tokens.getD 0 +
        (get_current_session_stats inconsistentSessionEnv sampleNow).output_tokens.getD 0) := by
  decide

/-- C1 amended: `total_tokens = input_tokens + output_tokens` (absent token
keys reading as 0, as the code's `.get(..., 0)` does) holds on every return
path of `get_time_period_stats`, and for `get_current_session_stats` on the
log-fallback and zeroed paths — that is, whenever the structured session
query fails; on the structured-success path the session fetcher passes the
external payload through without enforcing the invariant. -/
theorem claim_C1_total_tokens_invariant (penv : PeriodEnv) (senv : SessionEnv)
    (period : String) (st? et? : Option DateTime) (now : DateTime)
    (hs : senv.statsCall.failed = true) :
    ((get_time_period_stats penv period st? et? now).total_tokens =
      some ((get_time_period_stats penv period st? et? now).input_tokens.getD 0 +
        (get_time_period_stats penv period st? et? now).output_tokens.getD 0)) ∧
    ((get_current_session_stats senv now).total_tokens =
      some ((get_current_session_stats senv now).input_tokens.getD 0 +
        (get_current_session_stats senv now).output_tokens.getD 0)) := by
  constructor
  · rcases penv with ⟨pc, rc, lc⟩
    cases pc <;> cases rc <;>
      (simp only [get_time_period_stats, fillDerivedFields]
       split_ifs <;> simp)
  · rcases senv with ⟨sc, lc⟩
    cases sc with
    | parsed v => exact absurd hs (by simp [CallResult.failed])
    | execFailure =>
        cases hl : lc SESSION_LOG_LIMIT with
        | parsed logs => simp [get_current_session_stats, hl]
        | execFailure => simp [get_current_session_stats, hl]
        | parseFailure => simp [get_current_session_stats, hl]
    | parseFailure =>
        cases hl : lc SESSION_LOG_LIMIT with
        | parsed logs => simp [get_current_session_stats, hl]
        | execFailure => simp [get_current_session_stats, hl]
        | parseFailure => simp [get_current_session_stats, hl]

/-- Concrete instantiation of the amended C1 invariant. -/
theorem claim_C1_total_tokens_invariant_witness :
    failingSessionEnv.statsCall.failed = true ∧
    (((get_time_period_stats failingPeriodEnv ("weekly") none none sampleNow).total_tokens =
      some ((get_time_period_stats failingPeriodEnv ("weekly") none none sampleNow).input_tokens.getD 0 +
        (get_time_period_stats failingPeriodEnv ("weekly") none none sampleNow).output_tokens.getD 0)) ∧
    ((get_current_session_stats failingSessionEnv sampleNow).total_tokens =
      some ((get_current_session_stats failingSessionEnv sampleNow).input_tokens.getD 0 +
        (get_current_session_stats failingSessionEnv sampleNow).output_tokens.getD 0))) :=
  ⟨rfl,
   claim_C1_total_tokens_invariant failingPeriodEnv failingSessionEnv ("weekly")
     none none sampleNow rfl⟩

/-- Concrete instantiation of C9 at the spec's example config. -/
theorem claim_C9_api_key_masked_witness :
    (((("api_key") : String), ("secret")) ∈
      ([((("api_key") : String), ("secret"))] : List (String × String))) ∧
    (((("api_key") : String), ("********")) ∈
      redact_config ([((("api_key") : String), ("secret"))])) :=
  ⟨by simp,
   (claim_C9_api_key_masked ([((("api_key") : String), ("secret"))]) ("secret") (by simp)).1⟩

end ClaudeUsage
